import Mathlib

/-!
Shallow embedding of the go-installapplications orchestrator, translated from the
Go sources: the manifest data model and validator (pkg/config/bootstrap.go), the
fail-policy evaluator of the phase engine, the downloader (retry wrapper, single
attempt, parallel fetch), the retry store and daemon driver, the preflight script
semantics, the IPC request/response correlation, and the package receipt check.
Effects (HTTP, file system, subprocesses, sockets) are abstracted into explicit
outcome parameters; machine integers become Int, Go strings become String.
-/

namespace GoInstallApplications

/-- Item mirrors config.Item (pkg/config/bootstrap.go): one manifest entry.
Field names follow the Go struct; JSON names are in the source. -/
structure Item where
  file : String := ""
  name : String := ""
  type : String := ""
  url : String := ""
  hash : String := ""
  packageID : String := ""
  version : String := ""
  doNotWait : Bool := false
  pkgRequired : Bool := false
  skipIf : String := ""
  retries : Int := 0
  retryWait : Int := 0
  failPolicy : String := ""
deriving Repr, DecidableEq

/-- Bootstrap mirrors config.Bootstrap: the three ordered phase sequences. -/
structure Bootstrap where
  preflight : List Item := []
  setupAssistant : List Item := []
  userland : List Item := []
deriving Repr, DecidableEq

/-- Typed rendering of the fmt.Errorf values produced by ValidateBootstrap and
validateItemForPhase: each constructor carries the offending item name, type,
policy or phase exactly as the Go format strings interpolate them. -/
inductive ValidationError where
  | preflightTooMany
  | invalidType (itemName ty : String)
  | rootOnlyPhase (phase ty : String)
  | unknownPhase (phase : String)
  | invalidFailPolicy (itemName policy : String)
  | preflightNotRootscript (ty : String)
deriving Repr, DecidableEq

/-- The five allowed item types of validateItemForPhase. -/
def allowedItemTypes : List String :=
  ["package", "rootscript", "userscript", "rootfile", "userfile"]

/-- The three known fail policies of validateFailPolicy. -/
def validFailPolicies : List String :=
  ["failure_is_not_an_option", "failable", "failable_execution"]

/-- validateFailPolicy from bootstrap.go: the three known values or empty are valid. -/
def validateFailPolicy (policy : String) : Bool :=
  policy == "failure_is_not_an_option" || policy == "failable" ||
    policy == "failable_execution" || policy == ""

/-- Phase switch of validateItemForPhase: preflight and setupassistant refuse
user-context types, userland allows all, anything else is an unknown phase. -/
def phaseCheck (item : Item) (phase : String) : Option ValidationError :=
  if phase = "preflight" ∨ phase = "setupassistant" then
    if item.type = "userscript" ∨ item.type = "userfile" then
      some (.rootOnlyPhase phase item.type)
    else none
  else if phase = "userland" then none
  else some (.unknownPhase phase)

/-- validateItemForPhase from bootstrap.go: type must be one of the five allowed,
then the phase restriction applies, then a non-empty fail policy is checked. -/
def validateItemForPhase (item : Item) (phase : String) : Option ValidationError :=
  if item.type ∉ allowedItemTypes then some (.invalidType item.name item.type)
  else
    match phaseCheck item phase with
    | some e => some e
    | none =>
      if item.failPolicy ≠ "" ∧ validateFailPolicy item.failPolicy = false then
        some (.invalidFailPolicy item.name item.failPolicy)
      else none

/-- First error of a per-item validator over a list, as the Go range loops return
the first non-nil error. -/
def firstError (f : Item → Option ValidationError) : List Item → Option ValidationError
  | [] => none
  | i :: rest =>
    match f i with
    | some e => some e
    | none => firstError f rest

/-- Per-item preflight validation of ValidateBootstrap: validateItemForPhase for
the preflight phase followed by the rootscript-only check. -/
def validatePreflightItem (item : Item) : Option ValidationError :=
  match validateItemForPhase item "preflight" with
  | some e => some e
  | none =>
    if item.type ≠ "rootscript" then some (.preflightNotRootscript item.type)
    else none

/-- ValidateBootstrap from bootstrap.go: at most one preflight item, then the three
per-phase item loops in order, returning the first error. -/
def validateBootstrap (b : Bootstrap) : Option ValidationError :=
  if b.preflight.length > 1 then some .preflightTooMany
  else
    match firstError validatePreflightItem b.preflight with
    | some e => some e
    | none =>
      match firstError (fun i => validateItemForPhase i "setupassistant") b.setupAssistant with
      | some e => some e
      | none => firstError (fun i => validateItemForPhase i "userland") b.userland

/-- GetEffectiveFailPolicy from bootstrap.go: empty defaults to failable_execution. -/
def Item.getEffectiveFailPolicy (item : Item) : String :=
  if item.failPolicy = "" then "failable_execution" else item.failPolicy

/-- handleItemError from the phase engine (phases manager): true means the phase
must stop, false means it continues with the next item. -/
def handleItemError (item : Item) (operation : String) : Bool :=
  if item.getEffectiveFailPolicy = "failure_is_not_an_option" then true
  else if item.getEffectiveFailPolicy = "failable" then false
  else if item.getEffectiveFailPolicy = "failable_execution" then
    if operation = "script execution" then false else true
  else true

/-- Valid fail policy field: empty or one of the three known values. -/
def failPolicyOk (i : Item) : Prop :=
  i.failPolicy = "" ∨ i.failPolicy ∈ validFailPolicies

instance (i : Item) : Decidable (failPolicyOk i) := by
  unfold failPolicyOk; infer_instance

/-- Result of one call to downloadOnce, abstracting HTTP and file I/O: either the
attempt fails with an error message, or it saves the destination file, whose
SHA-256 digest is the given hex string. -/
inductive AttemptResult where
  | fail (msg : String)
  | saved (digest : String)
deriving Repr, DecidableEq

/-- Loop body of utils.Retry: fuel is the number of remaining iterations
(maxRetries + 1 at the top call), attempt the loop counter; the result is the
1-based count of attempts on the first success, none when every attempt failed.
The sleep between attempts has no bearing on the result and is not modelled. -/
def retryLoop (outcome : Nat → Option String) : Nat → Nat → Option Nat
  | 0, _ => none
  | fuel + 1, attempt =>
    match outcome attempt with
    | none => some (attempt + 1)
    | some _ => retryLoop outcome fuel (attempt + 1)

/-- Retry from utils: runs the operation up to maxRetries + 1 times (the first
attempt immediate), returning the attempts made and whether it succeeded.
outcome k is the error of the k-th call of the operation (none on success). -/
def Retry (outcome : Nat → Option String) (maxRetries : Int) : Int × Bool :=
  match retryLoop outcome (maxRetries + 1).toNat 0 with
  | some attempts => ((attempts : Int), true)
  | none => (maxRetries + 1, false)

/-- Error view of an attempt sequence, as the downloadOperation closure of
DownloadFileWithRetries hands downloadOnce to utils.Retry. -/
def attemptError (attempts : Nat → AttemptResult) (k : Nat) : Option String :=
  match attempts k with
  | .fail e => some e
  | .saved _ => none

/-- VerifyFileHash from the download client: an empty expected hash skips
verification, otherwise the saved file digest must equal the expected hash.
The file was saved by the attempt just completed, so the open and read of the
saved file are assumed to succeed. -/
def verifyFileHash (digest expectedHash : String) : Bool :=
  if expectedHash = "" then true else digest == expectedHash

/-- DownloadFileWithRetries from the download client: zero retries or retryWait
select the client defaults, utils.Retry wraps downloadOnce alone, and hash
verification runs once, after the retry loop, on the file saved by the attempt
that succeeded. Returns true when the whole call returns a nil error. -/
def downloadFileWithRetries (attempts : Nat → AttemptResult) (expectedHash : String)
    (retries retryWait defaultRetries defaultRetryWait : Int) : Bool :=
  let r := if retries = 0 then defaultRetries else retries
  let _w := if retryWait = 0 then defaultRetryWait else retryWait
  match retryLoop (attemptError attempts) (r + 1).toNat 0 with
  | none => false
  | some attemptCount =>
    match attempts (attemptCount - 1) with
    | .saved digest => verifyFileHash digest expectedHash
    | .fail _ => false

/-- DownloadResult from pkg/download/interfaces.go. -/
structure DownloadResult where
  item : Item
  error : Option String
deriving Repr, DecidableEq

/-- DownloadMultipleWithCleanup from pkg/download/interfaces.go, modelled
pointwise: every goroutine writes results at its own index exactly once and
wg.Wait joins them all, so the returned slice is the per-item map regardless
of completion order. dl is the outcome of DownloadFileWithRetries for an item;
maxConcurrency bounds scheduling only and cleanupOnFailure only removes failed
files afterwards, neither changes the returned slice. Items without a url are
reported as successes without downloading. -/
def downloadMultipleWithCleanup (dl : Item → Option String)
    (items : List Item) (maxConcurrency : Int) (cleanupOnFailure : Bool) : List DownloadResult :=
  items.map (fun item =>
    if item.url ≠ "" then { item := item, error := dl item }
    else { item := item, error := none })

/-- Outcomes of the successive steps of a single downloadOnce call. -/
structure DownloadOnceEnv where
  ensureDirOk : Bool := true
  newRequestOk : Bool := true
  httpResponse : Option Int := some 200
  createOk : Bool := true
  copyOk : Bool := true
  digest : String := ""
deriving Repr, DecidableEq

/-- Error classification of downloadOnce mirroring its return statements. -/
inductive OnceOutcome where
  | ok (digest : String)
  | dirError
  | requestError
  | transportError
  | badStatus (code : Int)
  | createError
  | copyError
deriving Repr, DecidableEq

/-- downloadOnce from the download client: ensure directory, build request, issue
it, require status 200, create the destination file, stream the body into it.
The second component records whether the destination file exists after the call,
for a destination that did not exist before: os.Create brings it into existence
and no branch of the function removes it. -/
def downloadOnce (env : DownloadOnceEnv) : OnceOutcome × Bool :=
  if !env.ensureDirOk then (.dirError, false)
  else if !env.newRequestOk then (.requestError, false)
  else
    match env.httpResponse with
    | none => (.transportError, false)
    | some status =>
      if status ≠ 200 then (.badStatus status, false)
      else if !env.createOk then (.createError, false)
      else if !env.copyOk then (.copyError, true)
      else (.ok env.digest, true)

/-- RetryState from pkg/retry/counter.go; the two timestamps have no bearing on
any control decision and are not modelled. -/
structure RetryState where
  count : Int
  reason : String := ""
deriving Repr, DecidableEq

/-- MaxRetries from pkg/retry/counter.go. -/
def MaxRetries : Int := 3

/-- GetRetryCount: a missing or unreadable record reads as zero. The persisted
record is modelled as an Option: none when the state file is absent or unreadable. -/
def getRetryCount (s : Option RetryState) : Int :=
  match s with
  | none => 0
  | some st => st.count

/-- ShouldRetry from counter.go: false once the persisted count reaches MaxRetries. -/
def shouldRetry (s : Option RetryState) : Bool :=
  if getRetryCount s ≥ MaxRetries then false else true

/-- IncrementRetryCount from counter.go: start from a fresh zero record when none
is readable, then increment the count and record the reason. -/
def incrementRetryCount (reason : String) (s : Option RetryState) : Option RetryState :=
  let st :=
    match s with
    | none => ({ count := 0 } : RetryState)
    | some st => st
  some { count := st.count + 1, reason := reason }

/-- Abstracted outcomes of the effectful steps of RunDaemon (mode package,
daemon source): bootstrap none means getBootstrap failed; the phase errors are
the results of ProcessItems; userlandDownloadErrors counts failed pre-downloads;
agentWaitOk is the readiness wait; userlandItemError is the first failing
userland item, backgroundFailed the per-phase background drain. -/
structure DaemonEnv where
  bootstrap : Option Bootstrap := none
  preflightError : Option String := none
  setupError : Option String := none
  userlandDownloadErrors : Nat := 0
  agentWaitOk : Bool := true
  userlandItemError : Option String := none
  backgroundFailed : Bool := false
deriving Repr, DecidableEq

/-- Observable result of one daemon run: the process exit code, whether the run
reached the manifest-loading step, and the retry record left on disk. -/
structure DaemonResult where
  exitCode : Nat
  manifestLoadAttempted : Bool
  finalRetry : Option RetryState
deriving Repr, DecidableEq

/-- RunDaemon from the daemon source of the mode package, as a state transformer
over the persisted retry record: gate on ShouldRetry (exit 0 untouched when
denied), increment with reason daemon started, load the bootstrap, run
preflight and setupassistant, pre-download userland, wait for the agent, run
the userland loop, drain background processes; failure exits before the
userland orchestration increment the record a second time with the failure
reason, failure exits inside it do not; success clears the record and exits 0. -/
def runDaemon (env : DaemonEnv) (s0 : Option RetryState) : DaemonResult :=
  if shouldRetry s0 = false then
    { exitCode := 0, manifestLoadAttempted := false, finalRetry := s0 }
  else
    let s1 := incrementRetryCount "daemon started" s0
    match env.bootstrap with
    | none =>
      { exitCode := 1, manifestLoadAttempted := true,
        finalRetry := incrementRetryCount "bootstrap failed" s1 }
    | some b =>
      if b.preflight ≠ [] ∧ env.preflightError.isSome then
        { exitCode := 1, manifestLoadAttempted := true,
          finalRetry := incrementRetryCount "preflight failed" s1 }
      else if b.setupAssistant ≠ [] ∧ env.setupError.isSome then
        { exitCode := 1, manifestLoadAttempted := true,
          finalRetry := incrementRetryCount "setupassistant failed" s1 }
      else if b.userland ≠ [] then
        if env.userlandDownloadErrors > 0 then
          { exitCode := 1, manifestLoadAttempted := true,
            finalRetry := incrementRetryCount "userland downloads failed" s1 }
        else if !env.agentWaitOk then
          { exitCode := 1, manifestLoadAttempted := true, finalRetry := s1 }
        else
          match env.userlandItemError with
          | some _ => { exitCode := 1, manifestLoadAttempted := true, finalRetry := s1 }
          | none =>
            if env.backgroundFailed then
              { exitCode := 1, manifestLoadAttempted := true, finalRetry := s1 }
            else { exitCode := 0, manifestLoadAttempted := true, finalRetry := none }
      else { exitCode := 0, manifestLoadAttempted := true, finalRetry := none }

/-- Result of spawning and waiting on a script process: exited carries the exit
code of a process that ran; spawnError covers the validate and start failures
(missing file, permission, command construction). -/
inductive ExecOutcome where
  | exited (code : Nat)
  | spawnError (msg : String)
deriving Repr, DecidableEq

/-- Error values of preflight script execution as the installer returns them:
the typed PreflightSuccessError sentinel or an ordinary execution error. -/
inductive ScriptError where
  | preflightSuccess
  | execFailed (msg : String)
deriving Repr, DecidableEq

/-- handlePreflightResult from pkg/installer (script executor): a nil wait error
means exit code zero and returns the PreflightSuccessError sentinel; an
ExitError (the process ran and exited non-zero) returns nil so the bootstrap
continues; any other error is returned as a hard execution failure. -/
def handlePreflightResult (o : ExecOutcome) : Option ScriptError :=
  match o with
  | .exited 0 => some .preflightSuccess
  | .exited (_ + 1) => none
  | .spawnError msg => some (.execFailed msg)

/-- handlePreflightScript from the manager: forwards the sentinel after running
the full cleanup (the Bool records that cleanup ran), wraps ordinary execution
errors as phase failures, and passes a nil result through. -/
def handlePreflightScript (o : ExecOutcome) : Option ScriptError × Bool :=
  match handlePreflightResult o with
  | some .preflightSuccess => (some .preflightSuccess, true)
  | some (.execFailed m) => (some (.execFailed m), false)
  | none => (none, false)

/-- What the daemon driver does with the preflight phase result. -/
inductive DriverOutcome where
  | cleanupAndExitSuccess
  | phaseFailed
  | continueRun
deriving Repr, DecidableEq

/-- The daemon driver branch on the preflight result: the PreflightSuccessError
sentinel leads to full cleanup and exit 0, any other error fails the phase
(retry increment and exit 1), and nil continues into setupassistant and
userland. -/
def driverAfterPreflight (o : ExecOutcome) : DriverOutcome :=
  match (handlePreflightScript o).1 with
  | some .preflightSuccess => .cleanupAndExitSuccess
  | some (.execFailed _) => .phaseFailed
  | none => .continueRun

/-- RPCRequest from pkg/ipc/ipc.go. -/
structure RPCRequest where
  id : String := ""
  command : String := ""
  path : String := ""
  source : String := ""
  doNotWait : Bool := false
deriving Repr, DecidableEq

/-- RPCResponse from pkg/ipc/ipc.go. -/
structure RPCResponse where
  id : String := ""
  ok : Bool := false
  started : Bool := false
  exitCode : Int := 0
  output : String := ""
  error : String := ""
deriving Repr, DecidableEq

/-- Effect oracle for the agent handler: script execution by path and donotwait,
and file placement by path; none is success, some an error message. -/
structure AgentEnv where
  runScript : String → Bool → Option String
  placeFile : String → Option String

/-- The request handler of RunAgent (mode package): Ping and Shutdown answer ok,
RunUserScript executes the script (marking started for donotwait requests),
PlaceUserFile places the file, anything else is an unknown command; every
branch builds its response with the id of the request. -/
def agentHandler (env : AgentEnv) (req : RPCRequest) : RPCResponse :=
  if req.command = "Ping" then { id := req.id, ok := true }
  else if req.command = "Shutdown" then { id := req.id, ok := true }
  else if req.command = "RunUserScript" then
    if req.doNotWait then
      match env.runScript req.path true with
      | some e => { id := req.id, ok := false, error := e }
      | none => { id := req.id, ok := true, started := true }
    else
      match env.runScript req.path false with
      | some e => { id := req.id, ok := false, error := e }
      | none => { id := req.id, ok := true }
  else if req.command = "PlaceUserFile" then
    match env.placeFile req.path with
    | some e => { id := req.id, ok := false, error := e }
    | none => { id := req.id, ok := true }
  else { id := req.id, ok := false, error := "unknown command" }

/-- The id the request carries on the wire after callAgent ensures one:
generated when the caller left it empty. -/
def effectiveId (genId : String) (req : RPCRequest) : String :=
  if req.id = "" then genId else req.id

/-- callAgent from daemon_ipc_client.go with the socket abstracted into a
responder: attach an id when absent, send, decode (none is a decode error),
and fail hard when the response id differs from the request id. -/
def callAgent (genId : String) (responder : RPCRequest → Option RPCResponse)
    (req : RPCRequest) : Except String RPCResponse :=
  let sent := if req.id = "" then { req with id := genId } else req
  match responder sent with
  | none => .error "decode error"
  | some resp =>
    if resp.id ≠ sent.id then .error "mismatched response id"
    else .ok resp

/-- CheckPackageReceipt from pkg/utils: receipts is the pkgutil pkg-info oracle,
none when the package has no receipt, some verInfo when installed, where
verInfo is the parsed version line (none when no version can be extracted).
An empty packageID reports installed without consulting pkgutil; an empty
required version or an unparsable receipt version also report installed;
otherwise the versions must match. The Go function returns a nil error on
every path. -/
def checkPackageReceipt (receipts : String → Option (Option String))
    (packageID version : String) : Bool :=
  if packageID = "" then true
  else
    match receipts packageID with
    | none => false
    | some verInfo =>
      if version = "" then true
      else
        match verInfo with
        | none => true
        | some installedVersion => installedVersion == version

/-- Action the package branch of ProcessItems takes for one package item. -/
inductive PackageAction where
  | skippedAlreadyInstalled
  | installedOk
  | installFailedStop
  | installFailedContinue
deriving Repr, DecidableEq

/-- Package branch of ProcessItems (phases manager): with pkg_required the
receipt is checked first and an installed package is skipped; otherwise
InstallPackage runs and failures go through handleItemError. The Bool records
whether InstallPackage was invoked. installOk abstracts the installer result. -/
def packageDispatch (receipts : String → Option (Option String)) (installOk : Bool)
    (item : Item) : PackageAction × Bool :=
  if item.pkgRequired ∧ checkPackageReceipt receipts item.packageID item.version then
    (.skippedAlreadyInstalled, false)
  else if installOk then (.installedOk, true)
  else if handleItemError item "package installation" then (.installFailedStop, true)
  else (.installFailedContinue, true)

/-- Attempt sequence whose first download saves a file with digest aaaa and
whose later downloads save files with digest bbbb. -/
def mismatchThenMatch : Nat → AttemptResult := fun k =>
  if k = 0 then .saved "aaaa" else .saved "bbbb"

/-- Daemon environment in which loading the bootstrap fails. -/
def bootFailEnv : DaemonEnv := { bootstrap := none }

/-- Daemon environment with one userland item where the agent readiness wait fails. -/
def agentWaitFailEnv : DaemonEnv :=
  { bootstrap := some { userland := [{}] }, agentWaitOk := false }

/-- A Ping request carrying no id. -/
def pingRequest : RPCRequest := { command := "Ping" }

/-- Agent effect oracle where every operation succeeds. -/
def allOkAgentEnv : AgentEnv :=
  { runScript := fun _ _ => none, placeFile := fun _ => none }

theorem firstError_eq_none {f : Item → Option ValidationError} {l : List Item} :
    firstError f l = none ↔ ∀ i ∈ l, f i = none := by
  induction l with
  | nil => simp [firstError]
  | cons x xs ih => cases hx : f x <;> simp [firstError, hx, ih]

theorem validatePreflightItem_eq_none {i : Item} :
    validatePreflightItem i = none ↔ (i.type = "rootscript" ∧ failPolicyOk i) := by
  unfold validatePreflightItem validateItemForPhase phaseCheck
  constructor
  · intro h
    split_ifs at h <;> simp_all [allowedItemTypes, failPolicyOk, validFailPolicies,
      validateFailPolicy] <;> tauto
  · rintro ⟨hty, hfp⟩
    simp [hty, allowedItemTypes]
    rcases hfp with h | h
    · simp [h]
    · simp [validFailPolicies] at h
      rcases h with h | h | h <;> simp [h, validateFailPolicy]

theorem validateItemForPhase_setup_eq_none {i : Item} :
    validateItemForPhase i "setupassistant" = none ↔
      (i.type ∈ (["package", "rootscript", "rootfile"] : List String) ∧ failPolicyOk i) := by
  unfold validateItemForPhase phaseCheck
  constructor
  · intro h
    split_ifs at h <;> simp_all [allowedItemTypes, failPolicyOk, validFailPolicies,
      validateFailPolicy] <;> tauto
  · rintro ⟨hty, hfp⟩
    have hty5 : i.type ∈ allowedItemTypes := by
      simp [allowedItemTypes]; simp at hty; tauto
    have hnotuser : ¬(i.type = "userscript" ∨ i.type = "userfile") := by
      simp at hty; rcases hty with h | h | h <;> simp [h]
    simp [hty5, hnotuser]
    rcases hfp with h | h
    · simp [h]
    · simp [validFailPolicies] at h
      rcases h with h | h | h <;> simp [h, validateFailPolicy]

theorem validateItemForPhase_userland_eq_none {i : Item} :
    validateItemForPhase i "userland" = none ↔
      (i.type ∈ allowedItemTypes ∧ failPolicyOk i) := by
  unfold validateItemForPhase phaseCheck
  constructor
  · intro h
    split_ifs at h <;> simp_all [failPolicyOk, validFailPolicies, validateFailPolicy] <;> tauto
  · rintro ⟨hty, hfp⟩
    simp [hty]
    rcases hfp with h | h
    · simp [h]
    · simp [validFailPolicies] at h
      rcases h with h | h | h <;> simp [h, validateFailPolicy]

theorem retryLoop_eq_none_iff {outcome : Nat → Option String} {fuel start : Nat} :
    retryLoop outcome fuel start = none ↔ ∀ i < fuel, (outcome (start + i)).isSome := by
  induction fuel generalizing start with
  | zero => simp [retryLoop]
  | succ n ih =>
    cases h : outcome start with
    | none =>
      simp only [retryLoop, h]
      constructor
      · intro hc; exact Option.noConfusion hc
      · intro hall
        have h0 := hall 0 (Nat.succ_pos n)
        rw [Nat.add_zero, h] at h0
        exact absurd h0 (by decide)
    | some e =>
      simp only [retryLoop, h]
      rw [ih]
      constructor
      · intro hall i hi
        cases i with
        | zero => rw [Nat.add_zero, h]; rfl
        | succ j =>
          have hj := hall j (Nat.lt_of_succ_lt_succ hi)
          have hs : start + 1 + j = start + (j + 1) := by omega
          rwa [hs] at hj
      · intro hall j hj
        have hj1 := hall (j + 1) (Nat.succ_lt_succ hj)
        have hs : start + (j + 1) = start + 1 + j := by omega
        rwa [hs] at hj1

theorem retryLoop_eq_some_iff {outcome : Nat → Option String} {fuel start m : Nat} :
    retryLoop outcome fuel start = some m ↔
      ∃ i < fuel, m = start + i + 1 ∧ outcome (start + i) = none ∧
        ∀ j < i, (outcome (start + j)).isSome := by
  induction fuel generalizing start with
  | zero => simp [retryLoop]
  | succ n ih =>
    cases h : outcome start with
    | none =>
      simp only [retryLoop, h]
      constructor
      · intro hm
        refine ⟨0, Nat.succ_pos n, ?_, ?_, ?_⟩
        · have hm1 := Option.some.inj hm; omega
        · rw [Nat.add_zero]; exact h
        · intro j hj; exact absurd hj (Nat.not_lt_zero j)
      · rintro ⟨i, hi, hm, hout, hprev⟩
        cases i with
        | zero =>
          have hme : m = start + 1 := by omega
          rw [hme]
        | succ j =>
          have h0 := hprev 0 (Nat.succ_pos j)
          rw [Nat.add_zero, h] at h0
          exact absurd h0 (by decide)
    | some e =>
      simp only [retryLoop, h]
      rw [ih]
      constructor
      · rintro ⟨i, hi, hm, hout, hprev⟩
        refine ⟨i + 1, Nat.succ_lt_succ hi, by omega, ?_, ?_⟩
        · have hs : start + (i + 1) = start + 1 + i := by omega
          rw [hs]; exact hout
        · intro j hj
          cases j with
          | zero => rw [Nat.add_zero, h]; rfl
          | succ k =>
            have hk := hprev k (Nat.lt_of_succ_lt_succ hj)
            have hs : start + (k + 1) = start + 1 + k := by omega
            rw [hs]; exact hk
      · rintro ⟨i, hi, hm, hout, hprev⟩
        cases i with
        | zero =>
          rw [Nat.add_zero] at hout
          rw [hout] at h
          exact Option.noConfusion h
        | succ k =>
          refine ⟨k, Nat.lt_of_succ_lt_succ hi, by omega, ?_, ?_⟩
          · have hs : start + 1 + k = start + (k + 1) := by omega
            rw [hs]; exact hout
          · intro j hj
            have hj1 := hprev (j + 1) (Nat.succ_lt_succ hj)
            have hs : start + 1 + j = start + (j + 1) := by omega
            rw [hs]; exact hj1

theorem validateBootstrap_eq_none_iff (b : Bootstrap) :
    validateBootstrap b = none ↔
      (b.preflight.length ≤ 1 ∧
        firstError validatePreflightItem b.preflight = none ∧
        firstError (fun i => validateItemForPhase i "setupassistant") b.setupAssistant = none ∧
        firstError (fun i => validateItemForPhase i "userland") b.userland = none) := by
  unfold validateBootstrap
  split_ifs with hlen
  · have hgt : ¬ b.preflight.length ≤ 1 := by omega
    simp [hgt]
  · have hle : b.preflight.length ≤ 1 := by omega
    cases h1 : firstError validatePreflightItem b.preflight <;>
      cases h2 : firstError (fun i => validateItemForPhase i "setupassistant") b.setupAssistant <;>
      simp [hle]

/-- C2: the fail-policy evaluator of the phase engine. An empty fail-policy field
resolves to failable_execution; under failable_execution (also the empty-field
default) the phase continues exactly when the failing operation is script
execution, and stops for package installation, package receipt check and file
placement failures; under failable it always continues; under
failure_is_not_an_option it always stops. -/
theorem handleItemError_fail_policy (item : Item) (op : String) :
    ({ item with failPolicy := "" } : Item).getEffectiveFailPolicy = "failable_execution" ∧
    (handleItemError item op = false ↔
      (item.getEffectiveFailPolicy = "failable" ∨
        (item.getEffectiveFailPolicy = "failable_execution" ∧ op = "script execution"))) ∧
    handleItemError { item with failPolicy := "failable_execution" } "package installation" = true ∧
    handleItemError { item with failPolicy := "failable_execution" } "package receipt check" = true ∧
    handleItemError { item with failPolicy := "failable_execution" } "file placement" = true ∧
    handleItemError { item with failPolicy := "failable_execution" } "script execution" = false ∧
    handleItemError { item with failPolicy := "failable" } op = false ∧
    handleItemError { item with failPolicy := "failure_is_not_an_option" } op = true := by
  refine ⟨by simp [Item.getEffectiveFailPolicy], ?_, ?_, ?_, ?_, ?_, ?_, ?_⟩
  · unfold handleItemError
    split_ifs with h1 h2 h3 h4 <;> simp_all
  all_goals simp [handleItemError, Item.getEffectiveFailPolicy]

/-- C3: DownloadMultipleWithCleanup returns exactly one result per input item,
and the result at index k is the result for items[k] (its item field is
items[k] and its error is that item's download outcome, none for url-less
items), independent of concurrency, internal completion order, and the cleanup
flag. -/
theorem downloadMultipleWithCleanup_input_order (dl : Item → Option String)
    (items : List Item) (maxConcurrency : Int) (cleanupOnFailure : Bool) :
    (downloadMultipleWithCleanup dl items maxConcurrency cleanupOnFailure).length
        = items.length ∧
    ∀ k : Nat,
      (downloadMultipleWithCleanup dl items maxConcurrency cleanupOnFailure).get? k =
        (items.get? k).map (fun item =>
          if item.url ≠ "" then { item := item, error := dl item }
          else { item := item, error := none }) := by
  constructor
  · simp [downloadMultipleWithCleanup]
  · intro k
    simp [downloadMultipleWithCleanup]

/-- C4: a manifest accepted by ValidateBootstrap has at most one preflight item
and every preflight item is a rootscript, every setupassistant item is a
package, rootscript or rootfile, every item in every phase has one of the five
allowed types, and every non-empty fail_policy is one of the three known
values; a manifest violating any of these is rejected (validateBootstrap
returns some error, a ValidationError value naming the offending item or
phase). -/
theorem validateBootstrap_phase_invariants (b : Bootstrap) :
    validateBootstrap b = none ↔
      (b.preflight.length ≤ 1 ∧
        (∀ i ∈ b.preflight, i.type = "rootscript" ∧ failPolicyOk i) ∧
        (∀ i ∈ b.setupAssistant,
          i.type ∈ (["package", "rootscript", "rootfile"] : List String) ∧ failPolicyOk i) ∧
        (∀ i ∈ b.userland, i.type ∈ allowedItemTypes ∧ failPolicyOk i)) := by
  rw [validateBootstrap_eq_none_iff]
  constructor
  · rintro ⟨hle, h1, h2, h3⟩
    refine ⟨hle, ?_, ?_, ?_⟩
    · intro i hi; exact validatePreflightItem_eq_none.mp (firstError_eq_none.mp h1 i hi)
    · intro i hi; exact validateItemForPhase_setup_eq_none.mp (firstError_eq_none.mp h2 i hi)
    · intro i hi; exact validateItemForPhase_userland_eq_none.mp (firstError_eq_none.mp h3 i hi)
  · rintro ⟨hle, h1, h2, h3⟩
    refine ⟨hle, firstError_eq_none.mpr ?_, firstError_eq_none.mpr ?_,
      firstError_eq_none.mpr ?_⟩
    · intro i hi; exact validatePreflightItem_eq_none.mpr (h1 i hi)
    · intro i hi; exact validateItemForPhase_setup_eq_none.mpr (h2 i hi)
    · intro i hi; exact validateItemForPhase_userland_eq_none.mpr (h3 i hi)

/-- C5: executing the preflight rootscript has exactly three outcomes. Exit 0
yields the typed PreflightSuccessError sentinel, the manager runs full cleanup,
and the driver exits with success; a non-zero exit yields a nil result and the
run continues into setupassistant and userland; a spawn failure yields a hard
execution error that fails the phase. -/
theorem preflight_exit_semantics (n : Nat) (msg : String) :
    handlePreflightResult (.exited 0) = some .preflightSuccess ∧
    handlePreflightScript (.exited 0) = (some .preflightSuccess, true) ∧
    driverAfterPreflight (.exited 0) = .cleanupAndExitSuccess ∧
    handlePreflightResult (.exited (n + 1)) = none ∧
    handlePreflightScript (.exited (n + 1)) = (none, false) ∧
    driverAfterPreflight (.exited (n + 1)) = .continueRun ∧
    handlePreflightResult (.spawnError msg) = some (.execFailed msg) ∧
    handlePreflightScript (.spawnError msg) = (some (.execFailed msg), false) ∧
    driverAfterPreflight (.spawnError msg) = .phaseFailed := by
  simp [driverAfterPreflight, handlePreflightScript, handlePreflightResult]

/-- C10: a package item with pkg_required set and an empty packageid is reported
as already installed by CheckPackageReceipt (which short-circuits on the empty
id without consulting the receipt database), so the phase engine skips the item
and never invokes InstallPackage, whatever the receipt database and installer
would have done. -/
theorem pkgRequired_empty_packageID_skips
    (receipts : String → Option (Option String)) (installOk : Bool) (item : Item) :
    checkPackageReceipt receipts "" item.version = true ∧
    packageDispatch receipts installOk { item with pkgRequired := true, packageID := "" } =
      (.skippedAlreadyInstalled, false) := by
  constructor
  · simp [checkPackageReceipt]
  · simp [packageDispatch, checkPackageReceipt]

theorem attemptError_eq_none_iff {a : Nat → AttemptResult} {k : Nat} :
    attemptError a k = none ↔ ∃ d, a k = .saved d := by
  cases h : a k <;> simp [attemptError, h]

theorem attemptError_isSome_iff {a : Nat → AttemptResult} {k : Nat} :
    (attemptError a k).isSome ↔ ∃ e, a k = .fail e := by
  cases h : a k <;> simp [attemptError, h]

/-- C1 (amended): in DownloadFileWithRetries the retry loop wraps only the
download step (downloadOnce): the first attempt is immediate and up to retries
additional attempts follow (the client default replaces a zero retries value),
but hash verification runs once, after the loop, on the file saved by the
first attempt whose download succeeded. The call succeeds exactly when some
attempt k within the budget saves the file after all earlier attempts failed
to download, and that first saved file's digest matches the expected hash (or
the hash is empty); a saved file with a mismatched digest fails the whole call
with no further attempts. -/
theorem downloadFileWithRetries_hash_once (attempts : Nat → AttemptResult)
    (expectedHash : String) (retries retryWait defaultRetries defaultRetryWait : Int) :
    downloadFileWithRetries attempts expectedHash retries retryWait
        defaultRetries defaultRetryWait = true ↔
      ∃ k < ((if retries = 0 then defaultRetries else retries) + 1).toNat,
        (∀ j < k, ∃ e, attempts j = .fail e) ∧
        ∃ d, attempts k = .saved d ∧ verifyFileHash d expectedHash = true := by
  simp only [downloadFileWithRetries]
  cases h : retryLoop (attemptError attempts)
      ((if retries = 0 then defaultRetries else retries) + 1).toNat 0 with
  | none =>
    refine iff_of_false (by simp) ?_
    rintro ⟨k, hk, -, d, hsaved, -⟩
    have hall := retryLoop_eq_none_iff.mp h k hk
    rw [Nat.zero_add, attemptError_isSome_iff] at hall
    obtain ⟨e, he⟩ := hall
    rw [hsaved] at he
    exact AttemptResult.noConfusion he
  | some m =>
    dsimp only
    obtain ⟨i, hi, hm, hout, hprev⟩ := retryLoop_eq_some_iff.mp h
    rw [Nat.zero_add] at hout
    have hmi : m - 1 = i := by omega
    rw [hmi]
    rw [attemptError_eq_none_iff] at hout
    obtain ⟨d, hd⟩ := hout
    rw [hd]
    constructor
    · intro hv
      refine ⟨i, hi, ?_, d, hd, hv⟩
      intro j hj
      have hs := hprev j hj
      rw [Nat.zero_add, attemptError_isSome_iff] at hs
      exact hs
    · rintro ⟨k, hk, hkprev, d2, hk2, hv2⟩
      have hik : i = k := by
        rcases Nat.lt_trichotomy i k with hlt | heq | hgt
        · obtain ⟨e, he⟩ := hkprev i hlt
          rw [hd] at he
          exact AttemptResult.noConfusion he
        · exact heq
        · have hs := hprev k hgt
          rw [Nat.zero_add, attemptError_isSome_iff] at hs
          obtain ⟨e, he⟩ := hs
          rw [hk2] at he
          exact AttemptResult.noConfusion he
      subst hik
      rw [hd] at hk2
      have hdd : d = d2 := AttemptResult.saved.inj hk2
      rw [hdd]
      exact hv2

/-- C1 counterexample: expected hash bbbb and retries 1 allow two attempts; the
first download saves a mismatching file (digest aaaa), so the code fails the
whole call at the single post-loop hash verification, even though the second
attempt, still within the retry budget, would have saved a matching file, so
the claimed behaviour (a mismatching attempt is retried like any other
failure) would have succeeded. -/
theorem downloadFileWithRetries_mismatch_not_retried_cx :
    downloadFileWithRetries mismatchThenMatch "bbbb" 1 5 3 5 = false ∧
    ("bbbb" : String) ≠ "" ∧
    (1 : Nat) < ((if (1 : Int) = 0 then (3 : Int) else (1 : Int)) + 1).toNat ∧
    mismatchThenMatch 1 = .saved "bbbb" ∧
    verifyFileHash "bbbb" "bbbb" = true := by
  refine ⟨by decide, by decide, by decide, by decide, by decide⟩

/-- C1 witness: a first attempt that saves a matching file succeeds. -/
theorem downloadFileWithRetries_hash_once_witness :
    downloadFileWithRetries (fun _ => .saved "aaaa") "aaaa" 1 5 3 5 = true :=
  (downloadFileWithRetries_hash_once (fun _ => .saved "aaaa") "aaaa" 1 5 3 5).mpr
    ⟨0, by decide, fun j hj => absurd hj (Nat.not_lt_zero j), "aaaa", rfl, by decide⟩

/-- C6: ShouldRetry returns false exactly when the persisted count has reached
MaxRetries (3); in that case the daemon exits with code 0 at the gate, before
attempting to load the manifest, and leaves the retry record untouched. -/
theorem shouldRetry_cap_gate (s : Option RetryState) (env : DaemonEnv) :
    (shouldRetry s = false ↔ MaxRetries ≤ getRetryCount s) ∧
    (MaxRetries ≤ getRetryCount s →
      runDaemon env s =
        { exitCode := 0, manifestLoadAttempted := false, finalRetry := s }) := by
  have hiff : shouldRetry s = false ↔ MaxRetries ≤ getRetryCount s := by
    unfold shouldRetry
    split_ifs with h
    · exact iff_of_true rfl h
    · exact iff_of_false (by simp) h
  refine ⟨hiff, fun h => ?_⟩
  simp [runDaemon, hiff.mpr h]

/-- C6 witness: with a persisted count of 3 the daemon exits 0 untouched. -/
theorem shouldRetry_cap_gate_witness :
    runDaemon bootFailEnv (some { count := 3 }) =
      { exitCode := 0, manifestLoadAttempted := false,
        finalRetry := some { count := 3 } } :=
  (shouldRetry_cap_gate (some { count := 3 }) bootFailEnv).2 (by decide)

theorem getRetryCount_increment (r : String) (s : Option RetryState) :
    getRetryCount (incrementRetryCount r s) = getRetryCount s + 1 := by
  cases s <;> simp [incrementRetryCount, getRetryCount]

/-- Classification of every daemon run: it exits 0, or it leaves the count two
higher, or it leaves the count one higher than at entry. -/
theorem runDaemon_cases (env : DaemonEnv) (s0 : Option RetryState) :
    (runDaemon env s0).exitCode = 0 ∨
    getRetryCount (runDaemon env s0).finalRetry = getRetryCount s0 + 2 ∨
    getRetryCount (runDaemon env s0).finalRetry = getRetryCount s0 + 1 := by
  have hh2 : ∀ r1 r2 s, getRetryCount (incrementRetryCount r1 (incrementRetryCount r2 s)) =
      getRetryCount s + 2 := by
    intro r1 r2 s
    rw [getRetryCount_increment, getRetryCount_increment]
    omega
  simp only [runDaemon]
  by_cases hgate : shouldRetry s0 = false
  · rw [if_pos hgate]
    left
    rfl
  · rw [if_neg hgate]
    cases hb : env.bootstrap with
    | none =>
      dsimp only
      right; left
      exact hh2 _ _ _
    | some b =>
      dsimp only
      cases hu : env.userlandItemError with
      | some e =>
        dsimp only
        split_ifs with h1 h2 h3 h4 h5
        · right; left; exact hh2 _ _ _
        · right; left; exact hh2 _ _ _
        · right; left; exact hh2 _ _ _
        · right; right; rw [getRetryCount_increment]
        · right; right; rw [getRetryCount_increment]
        · left; rfl
      | none =>
        dsimp only
        split_ifs with h1 h2 h3 h4 h5 h6
        · right; left; exact hh2 _ _ _
        · right; left; exact hh2 _ _ _
        · right; left; exact hh2 _ _ _
        · right; right; rw [getRetryCount_increment]
        · right; right; rw [getRetryCount_increment]
        · left; rfl
        · left; rfl

/-- C7 (amended): for every run past the retry gate, a non-zero exit leaves the
persisted count one or two higher than at entry, and the increment is
attributed exactly per failure path: bootstrap-load failure, a preflight or
setupassistant phase failure, and a userland pre-download failure each exit 1
with the count exactly two higher (the entry increment with reason daemon
started plus a second increment carrying the failure reason); a failure inside
the userland orchestration (agent readiness wait, a userland item, the
background drain) exits 1 with the count exactly one higher (the entry
increment only). So a failed run increments by one or two, never uniformly by
exactly one as claimed. -/
theorem runDaemon_failed_run_increment (env : DaemonEnv) (s0 : Option RetryState)
    (hgate : shouldRetry s0 = true) :
    ((runDaemon env s0).exitCode ≠ 0 →
        getRetryCount (runDaemon env s0).finalRetry = getRetryCount s0 + 2 ∨
        getRetryCount (runDaemon env s0).finalRetry = getRetryCount s0 + 1) ∧
    (env.bootstrap = none →
        (runDaemon env s0).exitCode = 1 ∧
        getRetryCount (runDaemon env s0).finalRetry = getRetryCount s0 + 2) ∧
    (∀ b, env.bootstrap = some b →
      (b.preflight ≠ [] ∧ env.preflightError.isSome →
          (runDaemon env s0).exitCode = 1 ∧
          getRetryCount (runDaemon env s0).finalRetry = getRetryCount s0 + 2) ∧
      (¬(b.preflight ≠ [] ∧ env.preflightError.isSome) →
        (b.setupAssistant ≠ [] ∧ env.setupError.isSome →
            (runDaemon env s0).exitCode = 1 ∧
            getRetryCount (runDaemon env s0).finalRetry = getRetryCount s0 + 2) ∧
        (¬(b.setupAssistant ≠ [] ∧ env.setupError.isSome) → b.userland ≠ [] →
          (env.userlandDownloadErrors > 0 →
              (runDaemon env s0).exitCode = 1 ∧
              getRetryCount (runDaemon env s0).finalRetry = getRetryCount s0 + 2) ∧
          (¬ env.userlandDownloadErrors > 0 →
            (env.agentWaitOk = false →
                (runDaemon env s0).exitCode = 1 ∧
                getRetryCount (runDaemon env s0).finalRetry = getRetryCount s0 + 1) ∧
            (env.agentWaitOk = true →
              (env.userlandItemError.isSome →
                  (runDaemon env s0).exitCode = 1 ∧
                  getRetryCount (runDaemon env s0).finalRetry = getRetryCount s0 + 1) ∧
              (env.userlandItemError = none → env.backgroundFailed = true →
                  (runDaemon env s0).exitCode = 1 ∧
                  getRetryCount (runDaemon env s0).finalRetry = getRetryCount s0 + 1)))))) := by
  have hng : ¬ (shouldRetry s0 = false) := by rw [hgate]; simp
  have inc2 : ∀ r1 r2, getRetryCount (incrementRetryCount r1 (incrementRetryCount r2 s0)) =
      getRetryCount s0 + 2 := by
    intro r1 r2
    rw [getRetryCount_increment, getRetryCount_increment]
    omega
  refine ⟨?_, ?_, ?_⟩
  · intro h
    rcases runDaemon_cases env s0 with h0 | h2 | h1
    · exact absurd h0 h
    · exact Or.inl h2
    · exact Or.inr h1
  · intro hb
    simp only [runDaemon, if_neg hng, hb]
    exact ⟨trivial, inc2 _ _⟩
  · intro b hb
    refine ⟨?_, fun hnpre => ⟨?_, fun hnset huser => ⟨?_, fun hndl => ⟨?_, fun hagentT =>
      ⟨?_, fun hunone hbg => ?_⟩⟩⟩⟩⟩
    · intro hpre
      simp only [runDaemon, if_neg hng, hb]
      rw [if_pos hpre]
      exact ⟨rfl, inc2 _ _⟩
    · intro hset
      simp only [runDaemon, if_neg hng, hb]
      rw [if_neg hnpre, if_pos hset]
      exact ⟨rfl, inc2 _ _⟩
    · intro hdl
      simp only [runDaemon, if_neg hng, hb]
      rw [if_neg hnpre, if_neg hnset, if_pos huser, if_pos hdl]
      exact ⟨rfl, inc2 _ _⟩
    · intro hagentF
      have hbang : (!env.agentWaitOk) = true := by rw [hagentF]; rfl
      simp only [runDaemon, if_neg hng, hb]
      rw [if_neg hnpre, if_neg hnset, if_pos huser, if_neg hndl, if_pos hbang]
      exact ⟨rfl, by rw [getRetryCount_increment]⟩
    · intro hitem
      obtain ⟨e, he⟩ := Option.isSome_iff_exists.mp hitem
      have hbang : ¬ ((!env.agentWaitOk) = true) := by rw [hagentT]; simp
      simp only [runDaemon, if_neg hng, hb, he]
      rw [if_neg hnpre, if_neg hnset, if_pos huser, if_neg hndl, if_neg hbang]
      exact ⟨rfl, by rw [getRetryCount_increment]⟩
    · have hbang : ¬ ((!env.agentWaitOk) = true) := by rw [hagentT]; simp
      simp only [runDaemon, if_neg hng, hb, hunone]
      rw [if_neg hnpre, if_neg hnset, if_pos huser, if_neg hndl, if_neg hbang, if_pos hbg]
      exact ⟨rfl, by rw [getRetryCount_increment]⟩

/-- C7 counterexample: a run whose bootstrap load fails exits 1 and leaves the
count two higher than at entry (entry increment plus failure increment), not
exactly one higher as claimed. -/
theorem runDaemon_double_increment_cx :
    (runDaemon bootFailEnv none).exitCode ≠ 0 ∧
    getRetryCount (runDaemon bootFailEnv none).finalRetry = getRetryCount none + 2 := by
  refine ⟨by decide, by decide⟩

/-- C7 witness: a bootstrap-load failure increments by exactly two, an agent
readiness failure by exactly one. -/
theorem runDaemon_failed_run_increment_witness :
    ((runDaemon bootFailEnv none).exitCode = 1 ∧
      getRetryCount (runDaemon bootFailEnv none).finalRetry = getRetryCount none + 2) ∧
    ((runDaemon agentWaitFailEnv none).exitCode = 1 ∧
      getRetryCount (runDaemon agentWaitFailEnv none).finalRetry = getRetryCount none + 1) := by
  constructor
  · exact (runDaemon_failed_run_increment bootFailEnv none (by decide)).2.1 rfl
  · have h := ((((runDaemon_failed_run_increment agentWaitFailEnv none (by decide)).2.2
      { userland := [{}] } rfl).2 (by decide)).2 (by decide) (by decide)).2 (by decide)
    exact h.1 (by decide)

theorem agentHandler_echoes_id (env : AgentEnv) (req : RPCRequest) :
    (agentHandler env req).id = req.id := by
  unfold agentHandler
  split_ifs <;>
    first
      | rfl
      | (cases env.runScript req.path true <;> rfl)
      | (cases env.runScript req.path false <;> rfl)
      | (cases env.placeFile req.path <;> rfl)

/-- C8: every request sent by callAgent carries an id (the generated one when
the caller left it empty); the agent handler echoes the request id unchanged
in every command branch (Ping, Shutdown, RunUserScript with and without
donotwait, PlaceUserFile, unknown commands), so calling through the agent
returns that response; and any response whose id differs from the request id
is a hard RPC failure (mismatched response id), never matched to the call. -/
theorem rpc_id_roundtrip (env : AgentEnv) (genId : String) (req : RPCRequest) :
    effectiveId genId { req with id := "" } = genId ∧
    (agentHandler env req).id = req.id ∧
    callAgent genId (fun r => some (agentHandler env r)) req =
      .ok (agentHandler env { req with id := effectiveId genId req }) ∧
    ∀ resp : RPCResponse, resp.id ≠ effectiveId genId req →
      callAgent genId (fun _ => some resp) req = .error "mismatched response id" := by
  refine ⟨by simp [effectiveId], agentHandler_echoes_id env req, ?_, ?_⟩
  · unfold callAgent effectiveId
    by_cases hid : req.id = "" <;> simp [hid, agentHandler_echoes_id]
  · intro resp hne
    unfold callAgent
    unfold effectiveId at hne
    by_cases hid : req.id = "" <;> simp [hid] at hne ⊢ <;> simp [hne]

/-- C8 witness: a response with a different id fails the RPC hard. -/
theorem rpc_id_roundtrip_witness :
    callAgent "gen-1" (fun _ => some { id := "other", ok := true }) pingRequest =
      .error "mismatched response id" :=
  (rpc_id_roundtrip allOkAgentEnv "gen-1" pingRequest).2.2.2
    { id := "other", ok := true } (by decide)

/-- C9 counterexample: an attempt in which everything succeeds until streaming
the body fails: the attempt fails with the copy error, but the destination
file still exists afterwards; downloadOnce has no removal on this path, so the
claimed deletion of the destination does not happen. -/
theorem downloadOnce_copy_failure_cx :
    (downloadOnce { copyOk := false }).1 = .copyError ∧
    (downloadOnce { copyOk := false }).2 = true := by
  refine ⟨by decide, by decide⟩

/-- C9 (amended): when streaming the response body to the destination fails, the
attempt fails with the copy error and the destination file is left in place;
failed files are removed only by the later cleanup-tracker pass of
DownloadMultipleWithCleanup when cleanup on failure is configured. -/
theorem downloadOnce_copy_failure_keeps_file (digest : String) :
    downloadOnce { copyOk := false, digest := digest } = (.copyError, true) := rfl

/-- C9 witness for the amended statement at a concrete digest. -/
theorem downloadOnce_copy_failure_keeps_file_witness :
    downloadOnce { copyOk := false, digest := "abc" } = (.copyError, true) :=
  downloadOnce_copy_failure_keeps_file "abc"

/-- C2 witness: tolerant-exec stops on a package installation failure. -/
theorem handleItemError_fail_policy_witness :
    handleItemError { ({} : Item) with failPolicy := "failable_execution" }
      "package installation" = true :=
  (handleItemError_fail_policy {} "package installation").2.2.1

/-- C3 witness: the single result of a one-item fetch sits at index 0 and is the
result for that item. -/
theorem downloadMultipleWithCleanup_input_order_witness :
    (downloadMultipleWithCleanup (fun _ => none) [{ url := "u" }] 4 true).get? 0 =
      some { item := { url := "u" }, error := none } := by
  have h := (downloadMultipleWithCleanup_input_order (fun _ => none) [{ url := "u" }] 4 true).2 0
  simpa using h

/-- C4 witness: a manifest with a single preflight rootscript is accepted. -/
theorem validateBootstrap_phase_invariants_witness :
    validateBootstrap { preflight := [{ type := "rootscript" }] } = none :=
  (validateBootstrap_phase_invariants { preflight := [{ type := "rootscript" }] }).mpr
    (by decide)

/-- C5 witness: a preflight script exiting 1 lets the run continue. -/
theorem preflight_exit_semantics_witness :
    driverAfterPreflight (.exited 1) = .continueRun :=
  (preflight_exit_semantics 0 "m").2.2.2.2.2.1

/-- C6 is the gate theorem above; C10 witness: a concrete pkg-required item with
an empty packageid is skipped without invoking the installer. -/
theorem pkgRequired_empty_packageID_skips_witness :
    packageDispatch (fun _ => none) true
      { ({} : Item) with pkgRequired := true, packageID := "" } =
      (.skippedAlreadyInstalled, false) :=
  (pkgRequired_empty_packageID_skips (fun _ => none) true {}).2

end GoInstallApplications
